import Mathlib

/-!
Shallow embedding of the adaptive fetch-resolution engine of the
Queen Rose hiking app (`PoorNetworkHandler` together with the
`NetworkStatusIndicator` of `weather_offline.js`).

The stateful JavaScript is embedded as explicit state passing: the
handler's mutable fields become a small state record, the asynchronous
network world becomes an explicit per-call behaviour oracle (`NetBehavior`),
and each async entry point becomes a pure function from state and oracle to
an outcome record that also reports the observable side effects the spec
talks about (number of network fetches issued, fallback cache lookups,
the cache contents afterwards, and whether a pending timer handle was left
uncleared when the resolution settled).
-/

namespace GpsApp

/-- A network/cache response: its HTTP ok flag and an identity tag for the
body, enough to tell responses apart. -/
structure Response where
  ok : Bool
  body : Nat
  deriving DecidableEq, Repr

/-- The errors a fetch promise can reject with: the engine's own
`AbortController` abort (fired by the timeout) versus a transport-level
failure (DNS, connection reset, ...), tagged so distinct transport errors
stay distinguishable. -/
inductive JsError where
  | abortError : JsError
  | transportError : Nat → JsError
  deriving DecidableEq, Repr

/-- Behaviour of one underlying network call, as an oracle: it resolves
with a response at time `t` after issue, rejects with an error at time `t`,
or never settles. -/
inductive NetBehavior where
  | respond : Nat → Response → NetBehavior
  | fail : Nat → JsError → NetBehavior
  | hang : NetBehavior
  deriving DecidableEq, Repr

/-- What a settled fetch produced. -/
inductive FetchResult where
  | success : Response → FetchResult
  | failure : JsError → FetchResult
  deriving DecidableEq, Repr

/-- `this.maxNetworkTimeout = 3000` (part_000 line 10). -/
def maxNetworkTimeout : Nat := 3000

/-- `this.connectionCheckTimeout = 1500` (part_000 line 11). -/
def connectionCheckTimeout : Nat := 1500

/-- A fetch raced against a `setTimeout(() => controller.abort(), deadline)`:
if the underlying call settles strictly before the deadline its own outcome
wins at its own time; otherwise the timer fires first and the promise
rejects with the abort error at the deadline. -/
def boundedFetch (deadline : Nat) : NetBehavior → FetchResult × Nat
  | .respond t r => if t < deadline then (.success r, t) else (.failure .abortError, deadline)
  | .fail t e => if t < deadline then (.failure e, t) else (.failure .abortError, deadline)
  | .hang => (.failure .abortError, deadline)

/-- A fetch issued with no abort signal at all (the external pass-through of
part_000 line 124 and the last-resort fetch of line 180): `none` means the
call never settles. -/
def rawFetch : NetBehavior → Option (FetchResult × Nat)
  | .respond t r => some (.success r, t)
  | .fail t e => some (.failure e, t)
  | .hang => none

/-- The underlying call rejected strictly before the deadline: in the source
this is exactly the case in which the `catch` block runs while the
`setTimeout` handle is still pending, and no `clearTimeout` is on that path. -/
def earlyFailure (deadline : Nat) : NetBehavior → Bool
  | .fail t _ => t < deadline
  | _ => false

/-- The network call has not resolved by the deadline: it either never
settles or settles only at or after the deadline. -/
def netUnresolvedBy (deadline : Nat) : NetBehavior → Prop
  | .respond t _ => deadline ≤ t
  | .fail t _ => deadline ≤ t
  | .hang => True

/-- Character-list version of JavaScript `String.prototype.startsWith`. -/
def startsWithList : List Char → List Char → Bool
  | [], _ => true
  | _ :: _, [] => false
  | a :: as, b :: bs => a == b && startsWithList as bs

/-- Character-list version of JavaScript `String.prototype.includes`. -/
def containsList (needle : List Char) : List Char → Bool
  | [] => startsWithList needle []
  | c :: cs => startsWithList needle (c :: cs) || containsList needle cs

/-- `url.startsWith(pre)` on Lean strings. -/
def strStartsWith (url pre : String) : Bool :=
  startsWithList pre.data url.data

/-- `url.includes(needle)` on Lean strings. -/
def strContains (url needle : String) : Bool :=
  containsList needle.data url.data

/-- The pass-through test of part_000 line 123:
`url.includes('open-meteo.com') || url.startsWith('http') && !url.includes('localhost')`
(JavaScript `&&` binds tighter than `||`). -/
def isExternalUrl (url : String) : Bool :=
  strContains url "open-meteo.com" ||
    (strStartsWith url "http" && !strContains url "localhost")

/-- The two mutable mode flags of `PoorNetworkHandler` (part_000 lines 8 and
12); the timeout fields are constants and kept separate. -/
structure PNState where
  isSlowConnection : Bool
  cacheFirstMode : Bool
  deriving DecidableEq, Repr

/-- The world one call to the smart fetch runs against: the cache store
contents (`caches.match` by URL, a read failure already collapsed to `none`
inside `getCachedResponse`), the behaviour of the first, signal-bound
network fetch, and the behaviour of the last-resort fetch of line 180. -/
structure Env where
  cache : String → Option Response
  net1 : NetBehavior
  net2 : NetBehavior

/-- Everything one call to the smart fetch produced: the settled result and
its completion time (`none` when the call never settles), how many network
fetches were issued, how many fallback cache lookups ran, the cache store
afterwards, and whether a still-pending timeout handle was left uncleared
at settlement. -/
structure ResolveOutcome where
  result : Option (FetchResult × Nat)
  netCalls : Nat
  fallbackLookups : Nat
  cacheAfter : String → Option Response
  timerLive : Bool

/-- The cache lookup of part_000 lines 130-140: consulted only when
`this.cacheFirstMode || this.isSlowConnection`. -/
def preferredCacheHit (cfg : PNState) (env : Env) (url : String) : Option Response :=
  if cfg.cacheFirstMode || cfg.isSlowConnection then env.cache url else none

/-- The smart fetch override installed by `setupSmartFetch`
(part_000 lines 119-181), stage by stage:
external URLs pass straight to the original fetch (line 124); in cache-first
mode a cache hit returns immediately (line 135); otherwise the network is
fetched under the 3000 ms abort timer (lines 144-153), `clearTimeout` runs
only when that fetch resolves (line 155); an `ok` response is returned
(line 159), a rejected fetch falls back to one cache lookup and rethrows the
caught error on a miss (lines 161-177) with the timeout handle still pending
exactly when the rejection beat the timer; a resolved but non-`ok` response
falls out of the `try` to the last-resort unbounded fetch of line 180. -/
def resolve (cfg : PNState) (env : Env) (url : String) : ResolveOutcome :=
  if isExternalUrl url then
    { result := rawFetch env.net1, netCalls := 1, fallbackLookups := 0,
      cacheAfter := env.cache, timerLive := false }
  else
    match preferredCacheHit cfg env url with
    | some r =>
        { result := some (.success r, 0), netCalls := 0, fallbackLookups := 0,
          cacheAfter := env.cache, timerLive := false }
    | none =>
        match boundedFetch maxNetworkTimeout env.net1 with
        | (.success r, t) =>
            if r.ok then
              { result := some (.success r, t), netCalls := 1, fallbackLookups := 0,
                cacheAfter := env.cache, timerLive := false }
            else
              match rawFetch env.net2 with
              | some (fr2, t2) =>
                  { result := some (fr2, t + t2), netCalls := 2, fallbackLookups := 0,
                    cacheAfter := env.cache, timerLive := false }
              | none =>
                  { result := none, netCalls := 2, fallbackLookups := 0,
                    cacheAfter := env.cache, timerLive := false }
        | (.failure e, t) =>
            match env.cache url with
            | some r =>
                { result := some (.success r, t), netCalls := 1, fallbackLookups := 1,
                  cacheAfter := env.cache,
                  timerLive := earlyFailure maxNetworkTimeout env.net1 }
            | none =>
                { result := some (.failure e, t), netCalls := 1, fallbackLookups := 1,
                  cacheAfter := env.cache,
                  timerLive := earlyFailure maxNetworkTimeout env.net1 }

/-- What one run of `checkConnectionQuality` (part_000 lines 74-112)
produced: the handler flags afterwards, whether a probe fetch was issued at
all, and whether the probe's timeout handle was left pending and uncleared
when the run finished. -/
structure ProbeOutcome where
  state : PNState
  probeIssued : Bool
  timerLive : Bool
  deriving DecidableEq, Repr

/-- `checkConnectionQuality` (part_000 lines 74-112): offline short-circuits
to slow/cache-first with no probe (lines 75-79); otherwise the probe fetch
runs under the 1500 ms abort timer (lines 86-92), `clearTimeout` runs only
when it resolves (line 94), an `ok` response in under 1000 ms classifies
good (lines 98-101) and anything else slow (lines 102-106); every rejection
is swallowed by the `catch` and classifies slow (lines 107-111), leaving the
timeout handle pending exactly when the rejection beat the timer. -/
def checkConnectionQuality (onLine : Bool) (probe : NetBehavior) (_s : PNState) :
    ProbeOutcome :=
  if !onLine then
    { state := { isSlowConnection := true, cacheFirstMode := true },
      probeIssued := false, timerLive := false }
  else
    match boundedFetch connectionCheckTimeout probe with
    | (.success r, t) =>
        if r.ok ∧ t < 1000 then
          { state := { isSlowConnection := false, cacheFirstMode := false },
            probeIssued := true, timerLive := false }
        else
          { state := { isSlowConnection := true, cacheFirstMode := true },
            probeIssued := true, timerLive := false }
    | (.failure _, _) =>
        { state := { isSlowConnection := true, cacheFirstMode := true },
          probeIssued := true,
          timerLive := earlyFailure connectionCheckTimeout probe }

/-- `const slowConnections = ['slow-2g', '2g', '3g']` (part_000 line 60). -/
def slowConnections : List String := ["slow-2g", "2g", "3g"]

/-- `checkConnectionType` (part_000 lines 57-72): classify from the
platform's `effectiveType` hint, setting both flags together either way. -/
def checkConnectionType (effectiveType : String) (_s : PNState) : PNState :=
  if slowConnections.contains effectiveType then
    { isSlowConnection := true, cacheFirstMode := true }
  else
    { isSlowConnection := false, cacheFirstMode := false }

/-- The state-mutating entry points of `PoorNetworkHandler`: the `online`
handler (lines 35-40, which resets both flags and re-runs the quality
check), the `offline` handler (lines 42-46), the connection-type-change
handler (lines 50-53), a periodic or initial quality check (line 21 and
line 30), and the two manual overrides (lines 196-207). Each event carries
the oracle data the source reads from the platform at that moment. -/
inductive HEvent where
  | onlineEvt : Bool → NetBehavior → HEvent
  | offlineEvt : HEvent
  | connTypeChange : String → HEvent
  | qualityCheck : Bool → NetBehavior → HEvent
  | enableCacheFirst : HEvent
  | disableCacheFirst : HEvent

/-- Apply one mutating entry point to the handler state. -/
def applyEvent (s : PNState) : HEvent → PNState
  | .onlineEvt onLine probe =>
      (checkConnectionQuality onLine probe
        { isSlowConnection := false, cacheFirstMode := false }).state
  | .offlineEvt => { isSlowConnection := true, cacheFirstMode := true }
  | .connTypeChange ty => checkConnectionType ty s
  | .qualityCheck onLine probe => (checkConnectionQuality onLine probe s).state
  | .enableCacheFirst => { isSlowConnection := true, cacheFirstMode := true }
  | .disableCacheFirst => { isSlowConnection := false, cacheFirstMode := false }

/-- The constructor state (part_000 lines 8 and 12): both flags false. -/
def initPNState : PNState :=
  { isSlowConnection := false, cacheFirstMode := false }

/-- The handler state after any sequence of mutating entry points from
construction. -/
def runEvents (evs : List HEvent) : PNState :=
  evs.foldl applyEvent initPNState

/-- The snapshot returned by `getNetworkStatus` (part_000 lines 210-216). -/
structure NetworkStatus where
  isSlowConnection : Bool
  cacheFirstMode : Bool
  isOnline : Bool
  deriving DecidableEq, Repr

/-- `getNetworkStatus` (part_000 lines 210-216). -/
def getNetworkStatus (onLine : Bool) (s : PNState) : NetworkStatus :=
  { isSlowConnection := s.isSlowConnection, cacheFirstMode := s.cacheFirstMode,
    isOnline := onLine }

/-- The status strings `updateStatus` is driven with in
`weather_offline.js`: `'unknown'` is the constructor value (line 292),
`'online'` is delivered by the online listener (line 333) and lands in the
`default` arm of the switch. -/
inductive IndStatus where
  | unknown : IndStatus
  | online : IndStatus
  | offline : IndStatus
  | slow : IndStatus
  | good : IndStatus
  deriving DecidableEq, Repr

/-- The mutable state of `NetworkStatusIndicator` that `updateStatus`,
`show` and `hide` read and write (lines 292-293). -/
structure IndicatorState where
  currentStatus : IndStatus
  isVisible : Bool
  deriving DecidableEq, Repr

/-- The user-visible notifications the indicator emits: a `show` with its
message and colour, or a `hide`. -/
inductive UiEvent where
  | show : String → String → UiEvent
  | hide : UiEvent
  deriving DecidableEq, Repr

/-- `show` (weather_offline.js lines 419-429): always repaints and becomes
visible. -/
def doShow (message backgroundColor : String) (s : IndicatorState) :
    IndicatorState × List UiEvent :=
  ({ s with isVisible := true }, [.show message backgroundColor])

/-- `hide` (weather_offline.js lines 431-439): a no-op when already
hidden. -/
def doHide (s : IndicatorState) : IndicatorState × List UiEvent :=
  if s.isVisible then ({ s with isVisible := false }, [.hide]) else (s, [])

/-- `updateStatus` (weather_offline.js lines 374-417): an early return when
the status is unchanged (line 375), otherwise the status is recorded and
the switch picks the visible notification; the delayed 3-second auto-hide
of the `good` arm is a separate timer callback and emits nothing at update
time. -/
def updateStatus (status : IndStatus) (s : IndicatorState) :
    IndicatorState × List UiEvent :=
  if s.currentStatus = status then (s, [])
  else
    let s1 : IndicatorState := { s with currentStatus := status }
    match status with
    | .offline => doShow "Offline Mode" "#f44336" s1
    | .slow => doShow "Slow Connection - Using Cache" "#ff9800" s1
    | .good => doShow "Good Connection" "#4caf50" s1
    | _ => doHide s1

/-- Run a sequence of status updates, collecting every notification. -/
def runUpdates (s : IndicatorState) : List IndStatus → IndicatorState × List UiEvent
  | [] => (s, [])
  | st :: rest =>
      let p1 := updateStatus st s
      let p2 := runUpdates p1.1 rest
      (p2.1, p1.2 ++ p2.2)

/-- The constructor state of the indicator (lines 291-293). -/
def initIndicatorState : IndicatorState :=
  { currentStatus := .unknown, isVisible := false }

/-- Every branch of `checkConnectionQuality` writes the two flags
together with equal values. -/
theorem checkConnectionQuality_state_agree (onLine : Bool) (probe : NetBehavior)
    (s : PNState) :
    (checkConnectionQuality onLine probe s).state.isSlowConnection =
      (checkConnectionQuality onLine probe s).state.cacheFirstMode := by
  unfold checkConnectionQuality
  split
  · rfl
  · split
    · split <;> rfl
    · rfl

/-- Every mutating entry point leaves the two flags equal. -/
theorem applyEvent_agree (s : PNState) (e : HEvent) :
    (applyEvent s e).isSlowConnection = (applyEvent s e).cacheFirstMode := by
  cases e with
  | onlineEvt onLine probe => exact checkConnectionQuality_state_agree onLine probe _
  | offlineEvt => rfl
  | connTypeChange ty =>
      simp only [applyEvent, checkConnectionType]
      split <;> rfl
  | qualityCheck onLine probe => exact checkConnectionQuality_state_agree onLine probe s
  | enableCacheFirst => rfl
  | disableCacheFirst => rfl

/-- Folding mutating entry points preserves flag agreement. -/
theorem foldl_applyEvent_agree :
    ∀ (evs : List HEvent) (s : PNState),
      s.isSlowConnection = s.cacheFirstMode →
      (evs.foldl applyEvent s).isSlowConnection =
        (evs.foldl applyEvent s).cacheFirstMode
  | [], _, h => h
  | e :: evs, s, _ =>
      foldl_applyEvent_agree evs (applyEvent s e) (applyEvent_agree s e)

/-- Claim C9: after construction and after every sequence of mutating
operations (online/offline/type-change handlers, quality checks, manual
overrides), the flags `isSlowConnection` and `cacheFirstMode` are equal, so
`getNetworkStatus` never returns a snapshot in which they differ. -/
theorem c9_flags_agree (evs : List HEvent) (onLine : Bool) :
    (runEvents evs).isSlowConnection = (runEvents evs).cacheFirstMode ∧
    (getNetworkStatus onLine (runEvents evs)).isSlowConnection =
      (getNetworkStatus onLine (runEvents evs)).cacheFirstMode := by
  have h := foldl_applyEvent_agree evs initPNState rfl
  exact ⟨h, h⟩

/-- Claim C8: `updateStatus` notifies only when the new mode differs from
the last recorded one, and driving the status through good, good emits
exactly the one notification. -/
theorem c8_no_duplicate_notifications :
    (∀ (s : IndicatorState) (status : IndStatus), s.currentStatus = status →
      updateStatus status s = (s, [])) ∧
    (runUpdates initIndicatorState [.good, .good]).2 =
      [.show "Good Connection" "#4caf50"] := by
  constructor
  · intro s status h
    simp [updateStatus, h]
  · rfl

/-- Witness for C8 at the concrete state whose recorded status is already
`good`. -/
theorem c8_witness :
    updateStatus .good { currentStatus := .good, isVisible := true } =
      ({ currentStatus := .good, isVisible := true }, []) :=
  c8_no_duplicate_notifications.1 { currentStatus := .good, isVisible := true } .good rfl

/-- Claim C7: an offline platform signal classifies slow/cache-first with
no probe issued; online always issues the probe; an `ok` probe response in
under 1000 ms classifies good; a non-`ok` or high-latency response, a
rejection, and an unresolved (timed-out) probe all classify slow; the probe
path always returns a `ProbeOutcome` (rejections are swallowed, never
surfaced). -/
theorem c7_quality_probe (s : PNState) (probe : NetBehavior) :
    checkConnectionQuality false probe s =
      { state := { isSlowConnection := true, cacheFirstMode := true },
        probeIssued := false, timerLive := false } ∧
    (checkConnectionQuality true probe s).probeIssued = true ∧
    (∀ t r, probe = .respond t r → t < 1000 → r.ok = true →
      (checkConnectionQuality true probe s).state =
        { isSlowConnection := false, cacheFirstMode := false }) ∧
    (∀ t r, probe = .respond t r → t < connectionCheckTimeout →
      (r.ok = false ∨ 1000 ≤ t) →
      (checkConnectionQuality true probe s).state =
        { isSlowConnection := true, cacheFirstMode := true }) ∧
    (∀ t e, probe = .fail t e →
      (checkConnectionQuality true probe s).state =
        { isSlowConnection := true, cacheFirstMode := true }) ∧
    (netUnresolvedBy connectionCheckTimeout probe →
      (checkConnectionQuality true probe s).state =
        { isSlowConnection := true, cacheFirstMode := true }) := by
  refine ⟨rfl, ?_, ?_, ?_, ?_, ?_⟩
  · unfold checkConnectionQuality
    simp only [Bool.not_true, Bool.false_eq_true, if_false]
    split
    · split <;> rfl
    · rfl
  · intro t r hp ht hok
    have ht2 : t < connectionCheckTimeout := by
      unfold connectionCheckTimeout; omega
    simp [checkConnectionQuality, hp, boundedFetch, ht2, ht, hok]
  · intro t r hp ht hbad
    have hcond : ¬ (r.ok = true ∧ t < 1000) := by
      rcases hbad with hbad | hbad
      · simp [hbad]
      · rintro ⟨-, h⟩; omega
    simp [checkConnectionQuality, hp, boundedFetch, ht, hcond]
  · intro t e hp
    by_cases ht : t < connectionCheckTimeout <;>
      simp [checkConnectionQuality, hp, boundedFetch, ht]
  · intro h
    cases hp : probe with
    | respond t r =>
        rw [hp] at h
        have : ¬ t < connectionCheckTimeout := by
          simpa [netUnresolvedBy, Nat.not_lt] using h
        simp [checkConnectionQuality, boundedFetch, this]
    | fail t e =>
        by_cases ht : t < connectionCheckTimeout <;>
          simp [checkConnectionQuality, boundedFetch, ht]
    | hang => rfl

/-- Witness for C7 at a fast, `ok` probe. -/
theorem c7_witness :
    (checkConnectionQuality true (.respond 200 { ok := true, body := 1 })
        initPNState).state =
      { isSlowConnection := false, cacheFirstMode := false } :=
  (c7_quality_probe initPNState (.respond 200 { ok := true, body := 1 })).2.2.1
    200 { ok := true, body := 1 } rfl (by decide) rfl

/-- Claim C5: in cache-first mode (either flag set), a cache hit is
returned immediately with zero network calls, and a cache miss falls
through to the network attempt rather than failing. -/
theorem c5_cache_first_mode (cfg : PNState) (env : Env) (url : String)
    (hext : isExternalUrl url = false)
    (hmode : (cfg.cacheFirstMode || cfg.isSlowConnection) = true) :
    (∀ r, env.cache url = some r →
      (resolve cfg env url).result = some (.success r, 0) ∧
      (resolve cfg env url).netCalls = 0) ∧
    (env.cache url = none → 1 ≤ (resolve cfg env url).netCalls) := by
  constructor
  · intro r hc
    simp [resolve, hext, preferredCacheHit, hmode, hc]
  · intro hc
    have hpref : preferredCacheHit cfg env url = none := by
      simp [preferredCacheHit, hmode, hc]
    unfold resolve
    simp only [hext, Bool.false_eq_true, if_false, hpref]
    split
    · split
      · simp
      · split <;> simp
    · split <;> simp

/-- Environment for the C5 witness: a cache hit with the network
untouched. -/
def c5Env : Env :=
  { cache := fun _ => some { ok := true, body := 42 }, net1 := .hang, net2 := .hang }

/-- Witness for C5 at a concrete cache-first hit. -/
theorem c5_witness :
    (resolve { isSlowConnection := true, cacheFirstMode := true } c5Env
        "/data.json").result = some (.success { ok := true, body := 42 }, 0) ∧
    (resolve { isSlowConnection := true, cacheFirstMode := true } c5Env
        "/data.json").netCalls = 0 :=
  (c5_cache_first_mode { isSlowConnection := true, cacheFirstMode := true } c5Env
    "/data.json" (by decide) rfl).1 { ok := true, body := 42 } rfl

/-- Claim C6: a transport rejection before the deadline whose fallback
cache lookup misses is rethrown unchanged, while a network attempt that
never resolves by the deadline surfaces the abort (timeout) error at the
deadline, an error distinguishable from every transport error. -/
theorem c6_error_surfacing (cfg : PNState) (env : Env) (url : String)
    (hext : isExternalUrl url = false) (hmiss : env.cache url = none) :
    (∀ t c, env.net1 = .fail t (.transportError c) → t < maxNetworkTimeout →
      (resolve cfg env url).result = some (.failure (.transportError c), t)) ∧
    (netUnresolvedBy maxNetworkTimeout env.net1 →
      (resolve cfg env url).result =
        some (.failure .abortError, maxNetworkTimeout)) ∧
    (∀ c, JsError.abortError ≠ JsError.transportError c) := by
  have hpref : preferredCacheHit cfg env url = none := by
    simp [preferredCacheHit, hmiss]
  refine ⟨?_, ?_, fun c h => JsError.noConfusion h⟩
  · intro t c hn ht
    simp [resolve, hext, hpref, hn, boundedFetch, ht, hmiss]
  · intro h
    cases hn : env.net1 with
    | respond t r =>
        rw [hn] at h
        have : ¬ t < maxNetworkTimeout := by
          simpa [netUnresolvedBy, Nat.not_lt] using h
        simp [resolve, hext, hpref, hn, boundedFetch, this, hmiss]
    | fail t e =>
        rw [hn] at h
        have : ¬ t < maxNetworkTimeout := by
          simpa [netUnresolvedBy, Nat.not_lt] using h
        simp [resolve, hext, hpref, hn, boundedFetch, this, hmiss]
    | hang =>
        simp [resolve, hext, hpref, hn, boundedFetch, hmiss]

/-- Environment for the C6 witness: an early transport rejection over an
empty cache. -/
def c6Env : Env :=
  { cache := fun _ => none, net1 := .fail 120 (.transportError 7), net2 := .hang }

/-- Witness for C6: the concrete transport error is rethrown unchanged. -/
theorem c6_witness :
    (resolve initPNState c6Env "/data.json").result =
      some (.failure (.transportError 7), 120) :=
  (c6_error_surfacing initPNState c6Env "/data.json" (by decide) rfl).1
    120 7 rfl (by decide)

/-- Claim C10: the pass-through test is exactly "contains open-meteo.com,
or starts with http and does not contain localhost"; every URL passing it
goes to the original transport unchanged — one unbounded network call, no
cache read or write, no timer, no fallback — while a non-external URL gets
the bounded pipeline (a hung network attempt still settles). -/
theorem c10_external_passthrough (cfg : PNState) (env : Env) (url : String) :
    (isExternalUrl url =
      (strContains url "open-meteo.com" ||
        (strStartsWith url "http" && !strContains url "localhost"))) ∧
    (isExternalUrl url = true →
      resolve cfg env url =
        { result := rawFetch env.net1, netCalls := 1, fallbackLookups := 0,
          cacheAfter := env.cache, timerLive := false }) ∧
    (isExternalUrl url = false → env.net1 = .hang →
      preferredCacheHit cfg env url = none →
      (resolve cfg env url).result ≠ none) := by
  refine ⟨rfl, ?_, ?_⟩
  · intro h
    simp [resolve, h]
  · intro h1 h2 h3
    cases hc : env.cache url <;>
      simp [resolve, h1, h3, h2, boundedFetch, hc]

/-- Environment for the C10 witness. -/
def c10Env : Env :=
  { cache := fun _ => some { ok := true, body := 2 },
    net1 := .respond 5 { ok := false, body := 404 }, net2 := .hang }

/-- Witness for C10: a third-party URL and an absolute same-origin-style
URL both pass straight through, non-`ok` status and cached entry
notwithstanding. -/
theorem c10_witness :
    resolve initPNState c10Env "https://api.open-meteo.com/v1/forecast" =
      { result := some (.success { ok := false, body := 404 }, 5), netCalls := 1,
        fallbackLookups := 0, cacheAfter := c10Env.cache, timerLive := false } ∧
    resolve initPNState c10Env "https://example.com/data.json" =
      { result := some (.success { ok := false, body := 404 }, 5), netCalls := 1,
        fallbackLookups := 0, cacheAfter := c10Env.cache, timerLive := false } :=
  ⟨(c10_external_passthrough initPNState c10Env
      "https://api.open-meteo.com/v1/forecast").2.1 (by decide),
   (c10_external_passthrough initPNState c10Env
      "https://example.com/data.json").2.1 (by decide)⟩

/-- Environment refuting C1: empty cache, a fast `ok` network response. -/
def c1Env : Env :=
  { cache := fun _ => none, net1 := .respond 200 { ok := true, body := 7 },
    net2 := .hang }

/-- Claim C1 counterexample: with classification good and the network for
/data.json succeeding in 200 ms, `resolve` returns the network response,
yet the cache still misses immediately afterwards — the engine stored
nothing. -/
theorem c1_counterexample :
    (resolve initPNState c1Env "/data.json").result =
      some (.success { ok := true, body := 7 }, 200) ∧
    (resolve initPNState c1Env "/data.json").cacheAfter "/data.json" = none := by
  exact ⟨rfl, rfl⟩

/-- Claim C1 amended: a network response that is `ok` and beats the
deadline is returned to the caller, but the engine leaves the cache store
exactly as it found it (it never writes the cache). -/
theorem c1_network_success_no_store (cfg : PNState) (env : Env) (url : String)
    (t : Nat) (r : Response)
    (hext : isExternalUrl url = false)
    (hpref : preferredCacheHit cfg env url = none)
    (hnet : env.net1 = .respond t r) (ht : t < maxNetworkTimeout)
    (hok : r.ok = true) :
    (resolve cfg env url).result = some (.success r, t) ∧
    (resolve cfg env url).cacheAfter = env.cache := by
  simp [resolve, hext, hpref, hnet, boundedFetch, ht, hok]

/-- Witness for the amended C1 at the counterexample environment. -/
theorem c1_witness :
    (resolve initPNState c1Env "/data.json").result =
      some (.success { ok := true, body := 7 }, 200) ∧
    (resolve initPNState c1Env "/data.json").cacheAfter = c1Env.cache :=
  c1_network_success_no_store initPNState c1Env "/data.json" 200
    { ok := true, body := 7 } (by decide) rfl rfl (by decide) rfl

/-- Environment refuting C2: the cache holds an entry, the first network
attempt resolves non-`ok`, and the last-resort fetch succeeds. -/
def c2Env : Env :=
  { cache := fun _ => some { ok := true, body := 9 },
    net1 := .respond 100 { ok := false, body := 404 },
    net2 := .respond 50 { ok := true, body := 5 } }

/-- Claim C2 counterexample: a non-`ok` network response makes `resolve`
issue a second network fetch (two in one call), skipping the cache fallback
even though the cache holds an entry. -/
theorem c2_counterexample :
    (resolve initPNState c2Env "/data.json").netCalls = 2 ∧
    (resolve initPNState c2Env "/data.json").fallbackLookups = 0 ∧
    (resolve initPNState c2Env "/data.json").result =
      some (.success { ok := true, body := 5 }, 150) := by
  exact ⟨rfl, rfl, rfl⟩

/-- Claim C2 amended: when the network attempt rejects (error or timeout),
exactly one fallback cache lookup runs and exactly one network fetch was
issued; when it resolves `ok`, one network fetch and no fallback; but when
it resolves non-`ok`, the engine skips the cache fallback and issues a
second, unbounded network fetch — two per call. -/
theorem c2_single_fallback (cfg : PNState) (env : Env) (url : String)
    (hext : isExternalUrl url = false)
    (hpref : preferredCacheHit cfg env url = none) :
    (∀ e t, boundedFetch maxNetworkTimeout env.net1 = (.failure e, t) →
      (resolve cfg env url).netCalls = 1 ∧
      (resolve cfg env url).fallbackLookups = 1) ∧
    (∀ r t, boundedFetch maxNetworkTimeout env.net1 = (.success r, t) →
      r.ok = true →
      (resolve cfg env url).netCalls = 1 ∧
      (resolve cfg env url).fallbackLookups = 0) ∧
    (∀ r t, boundedFetch maxNetworkTimeout env.net1 = (.success r, t) →
      r.ok = false →
      (resolve cfg env url).netCalls = 2 ∧
      (resolve cfg env url).fallbackLookups = 0) := by
  refine ⟨?_, ?_, ?_⟩
  · intro e t hb
    cases hc : env.cache url <;> simp [resolve, hext, hpref, hb, hc]
  · intro r t hb hok
    simp [resolve, hext, hpref, hb, hok]
  · intro r t hb hok
    cases hr : rawFetch env.net2 with
    | none => simp [resolve, hext, hpref, hb, hok, hr]
    | some p => simp [resolve, hext, hpref, hb, hok, hr]

/-- Witness for the amended C2 at the counterexample environment. -/
theorem c2_witness :
    (resolve initPNState c2Env "/data.json").netCalls = 2 ∧
    (resolve initPNState c2Env "/data.json").fallbackLookups = 0 :=
  (c2_single_fallback initPNState c2Env "/data.json" (by decide) rfl).2.2
    { ok := false, body := 404 } 100 (by decide) rfl

/-- A bounded fetch that produced a response never counts as an early
rejection. -/
theorem earlyFailure_of_success (d : Nat) (nb : NetBehavior) (r : Response)
    (t : Nat) (h : boundedFetch d nb = (.success r, t)) :
    earlyFailure d nb = false := by
  cases nb with
  | respond t2 r2 => rfl
  | fail t2 e =>
      exfalso
      by_cases ht : t2 < d <;> simp [boundedFetch, ht] at h
  | hang => simp [boundedFetch] at h

/-- Environment refuting C3: an early transport rejection, with a cache
entry so the resolution settles by fallback. -/
def c3Env : Env :=
  { cache := fun _ => some { ok := true, body := 1 },
    net1 := .fail 100 (.transportError 3), net2 := .hang }

/-- Claim C3 counterexample: a resolution that settles by cache fallback
after an early transport rejection leaves its timeout handle pending and
uncleared, and so does the quality probe on the same rejection. -/
theorem c3_counterexample :
    ((resolve initPNState c3Env "/map.json").result =
        some (.success { ok := true, body := 1 }, 100) ∧
      (resolve initPNState c3Env "/map.json").timerLive = true) ∧
    (checkConnectionQuality true (.fail 100 (.transportError 3))
        initPNState).timerLive = true := by
  exact ⟨⟨rfl, rfl⟩, rfl⟩

/-- Claim C3 amended: the timeout handle is cleared on the success path and
already spent on the timeout path, but it is left live exactly when the
underlying call rejects before the deadline — for the resolution and for
the quality probe alike. -/
theorem c3_timer_release (cfg : PNState) (env : Env) (url : String)
    (hext : isExternalUrl url = false)
    (hpref : preferredCacheHit cfg env url = none) :
    (resolve cfg env url).timerLive = earlyFailure maxNetworkTimeout env.net1 ∧
    (∀ (s : PNState) (probe : NetBehavior),
      (checkConnectionQuality true probe s).timerLive =
        earlyFailure connectionCheckTimeout probe) := by
  constructor
  · unfold resolve
    simp only [hext, Bool.false_eq_true, if_false, hpref]
    split
    · rename_i r t hb
      rw [earlyFailure_of_success maxNetworkTimeout env.net1 r t hb]
      split
      · rfl
      · split <;> rfl
    · split <;> rfl
  · intro s probe
    cases probe with
    | respond t r =>
        by_cases ht : t < connectionCheckTimeout <;>
          by_cases hcond : r.ok = true ∧ t < 1000 <;>
            simp [checkConnectionQuality, boundedFetch, earlyFailure, ht, hcond]
    | fail t e =>
        by_cases ht : t < connectionCheckTimeout <;>
          simp [checkConnectionQuality, boundedFetch, earlyFailure, ht]
    | hang => rfl

/-- Witness for the amended C3 at the counterexample environment. -/
theorem c3_witness :
    (resolve initPNState c3Env "/map.json").timerLive =
      earlyFailure maxNetworkTimeout c3Env.net1 :=
  (c3_timer_release initPNState c3Env "/map.json" (by decide) rfl).1

/-- An unsignalled fetch settles unless the behaviour is to hang. -/
theorem rawFetch_eq_none (nb : NetBehavior) (h : rawFetch nb = none) :
    nb = .hang := by
  cases nb <;> simp [rawFetch] at h ⊢

/-- Environment refuting C4: a fast non-`ok` response followed by a hanging
last-resort fetch, with a stale cache entry available. -/
def c4Env : Env :=
  { cache := fun _ => some { ok := true, body := 3 },
    net1 := .respond 10 { ok := false, body := 500 }, net2 := .hang }

/-- Claim C4 counterexample: `resolve` hangs forever — the network answered
non-`ok` within the deadline and the unbounded last-resort fetch never
settles, so the caller is never unblocked, cache entry notwithstanding. -/
theorem c4_counterexample :
    (resolve initPNState c4Env "/data.json").result = none := by
  exact rfl

/-- Claim C4 amended: a network attempt that has not resolved by the
deadline unblocks the caller at exactly the deadline, with the fallback
cache response on a hit and the abort failure on a miss; `resolve` can fail
to settle only by the unbounded last-resort fetch that follows an in-time
non-`ok` response. -/
theorem c4_deadline_unblocks (cfg : PNState) (env : Env) (url : String)
    (hext : isExternalUrl url = false)
    (hpref : preferredCacheHit cfg env url = none) :
    (netUnresolvedBy maxNetworkTimeout env.net1 →
      (resolve cfg env url).result =
        some ((match env.cache url with
          | some r => FetchResult.success r
          | none => FetchResult.failure .abortError), maxNetworkTimeout)) ∧
    ((resolve cfg env url).result = none →
      env.net2 = .hang ∧
        ∃ r t, boundedFetch maxNetworkTimeout env.net1 = (.success r, t) ∧
          r.ok = false) := by
  constructor
  · intro h
    cases hn : env.net1 with
    | respond t r =>
        rw [hn] at h
        have : ¬ t < maxNetworkTimeout := by
          simpa [netUnresolvedBy, Nat.not_lt] using h
        cases hc : env.cache url <;>
          simp [resolve, hext, hpref, hn, boundedFetch, this, hc]
    | fail t e =>
        rw [hn] at h
        have : ¬ t < maxNetworkTimeout := by
          simpa [netUnresolvedBy, Nat.not_lt] using h
        cases hc : env.cache url <;>
          simp [resolve, hext, hpref, hn, boundedFetch, this, hc]
    | hang =>
        cases hc : env.cache url <;>
          simp [resolve, hext, hpref, hn, boundedFetch, hc]
  · intro h
    unfold resolve at h
    simp only [hext, Bool.false_eq_true, if_false, hpref] at h
    revert h
    split
    · rename_i r t hb
      split
      · intro h; simp at h
      · rename_i hok
        split
        · intro h; simp at h
        · rename_i hr
          intro _
          refine ⟨rawFetch_eq_none env.net2 hr, r, t, hb, ?_⟩
          simpa using hok
    · split <;> (intro h; simp at h)

/-- Environment for the C4 witness: a hanging network attempt over a cache
hit. -/
def c4WEnv : Env :=
  { cache := fun _ => some { ok := true, body := 3 }, net1 := .hang,
    net2 := .hang }

/-- Witness for the amended C4: a hung network attempt is unblocked by the
cached entry at exactly the 3000 ms deadline. -/
theorem c4_witness :
    (resolve initPNState c4WEnv "/data.json").result =
      some (.success { ok := true, body := 3 }, maxNetworkTimeout) :=
  (c4_deadline_unblocks initPNState c4WEnv "/data.json" (by decide) rfl).1
    trivial

end GpsApp
